import Mathlib

/-
Verification of the `simple-ab` library (`src/simpleab/simpleab.py`).

The library consists of a generic `BaseAB` class (configuration validation,
side resolution with precedence forced > stored > freshly selected, state
recording, storage interaction), two concrete strategies (`SimpleAB`, which
dispatches to single-letter methods, and `ConfigurableAB`, which is built
from a side -> value mapping), and a pluggable storage collaborator.

The embedding below is a line-by-line translation of that module:
Python optional strings become `Option String` (with `None` and `""` both
falsy, as in Python), the storage collaborator becomes an explicit finite
map threaded through `test`, and exceptions become error values carried in
an explicit result structure that also records the post-call state.
-/

/-- Python truthiness of an optional string value: `None` and `''` are
falsy, every other string is truthy. -/
def truthy : Option String → Bool
  | none => false
  | some s => !s.isEmpty

/-- Python `'%s' % v` formatting of an optional string: `None` prints as
`"None"`, a string prints as itself. -/
def pyStr : Option String → String
  | none => "None"
  | some s => s

/-- Errors raised by the library.  The source has a single exception class
`ABTestError`; the constructors below distinguish its raise sites (the two
configuration checks at the top of `BaseAB.test`, and the side-validation /
side-not-implemented raises), matching the error taxonomy of the spec.
`keyError` and `typeError` model the Python built-in exceptions that
`ConfigurableAB.apply_side` can surface from `self.sides[side]`. -/
inductive ABError where
  | configError (msg : String)
  | validationError (msg : String)
  | keyError (key : String)
  | typeError (msg : String)
deriving Repr, DecidableEq

/-- Message of `ABTestError('Sides not given for "%s" test' % self.name)`. -/
def sidesNotGivenMsg (nm : String) : String :=
  "Sides not given for \"" ++ nm ++ "\" test"

/-- Message of `ABTestError('Unknown side "%s" for "%s" test' % (side, self.name))`. -/
def unknownSideMsg (side : Option String) (nm : String) : String :=
  "Unknown side \"" ++ pyStr side ++ "\" for \"" ++ nm ++ "\" test"

/-- Message of `ABTestError('Side "%s" is not implemented for "%s" test' % (side, self.name))`. -/
def notImplementedMsg (side nm : String) : String :=
  "Side \"" ++ side ++ "\" is not implemented for \"" ++ nm ++ "\" test"

/-- State of a storage collaborator that implements the four-method contract
faithfully: a finite map from (identity, test name) to the stored side,
newest entry first.  A pre-populated map also models sides written by other
parties (including degenerate values such as `""`). -/
abbrev StoreMap := List ((Option String × String) × String)

/-- `storage.get_side(identity, name)`: the side previously associated with
the user, or `None` if no side has been associated. -/
def storeGet (m : StoreMap) (identity : Option String) (name : String) : Option String :=
  (m.find? (fun e => e.1.1 == identity && e.1.2 == name)).map (fun e => e.2)

/-- `storage.set_side(identity, name, side)`: associates `side` with the
user for this test (newest write wins on lookup). -/
def storeSet (m : StoreMap) (identity : Option String) (name : String) (side : String) : StoreMap :=
  ((identity, name), side) :: m

deriving instance DecidableEq for Except

/-- Result and post-state of one `BaseAB.test` call.
`result` is the returned value or the raised error; `finalSide` is the
instance's `_side` after the call; `finalStore` is the storage state after
the call (`none` when no storage is attached); `usedGet` / `usedSel` record
whether `storage.get_side` / `select_side` were invoked during the call. -/
structure TestResult where
  result : Except ABError String
  finalSide : Option String
  finalStore : Option StoreMap
  usedGet : Bool
  usedSel : Bool
deriving Repr, DecidableEq

/-- Side resolution, lines 123-130 of `BaseAB.test`, factored out so that
theorems can name the resolved side:

    side = kwargs.pop('force_side', None)
    if not side and self.storage:
        side = self.storage.get_side(self.identity, self.name)
    if not side:
        side = self.select_side(*args, **kwargs)

`selectResult` abstracts the value returned by the (polymorphic)
`select_side` call.  Returns the resolved side together with the
`usedGet` / `usedSel` flags. -/
def resolveSide (store : Option StoreMap) (identity : Option String) (nm : String)
    (forceSide selectResult : Option String) : Option String × Bool × Bool :=
  let side1 := forceSide
  let step2 :=
    if !truthy side1 && store.isSome then (storeGet (store.getD []) identity nm, true)
    else (side1, false)
  let step3 :=
    if !truthy step2.1 then (selectResult, true) else (step2.1, false)
  (step3.1, step2.2, step3.2)

/-- The validation test of line 131, `not (not side or side not in
self.allowed_sides)`: the resolved side is non-falsy and allowed. -/
def sideOk (allowed : List String) : Option String → Bool
  | none => false
  | some s => !s.isEmpty && allowed.contains s

/-- `BaseAB.test` (lines 109-139).  The subclass extension points
`allowed_sides` and `apply_side` are parameters, as is the value produced
by `select_side` when it is invoked:

    if not self.name:
        raise ABTestError('Test should be named')
    if not self.allowed_sides:
        raise ABTestError('Sides not given for "%s" test' % self.name)
    side = ...resolution...
    if not side or side not in self.allowed_sides:
        raise ABTestError('Unknown side "%s" for "%s" test' % (side, self.name))
    self._side = side
    if self.storage:
        self.storage.set_side(self.identity, self.name, side)
    value = self.apply_side(side, *args, **kwargs)
    return value

Note that `self._side` is assigned, and `set_side` performed, before
`apply_side` runs, so a failure inside `apply_side` leaves both updated. -/
def BaseAB.test (name : Option String) (allowed : List String)
    (apply : String → Except ABError String)
    (identity : Option String) (store : Option StoreMap)
    (prevSide forceSide selectResult : Option String) : TestResult :=
  if truthy name = false then
    ⟨Except.error (ABError.configError "Test should be named"), prevSide, store, false, false⟩
  else if allowed.isEmpty then
    ⟨Except.error (ABError.configError (sidesNotGivenMsg (pyStr name))), prevSide, store, false, false⟩
  else
    let res := resolveSide store identity (pyStr name) forceSide selectResult
    if sideOk allowed res.1 then
      let s := res.1.getD ""
      ⟨apply s, some s, store.map (fun m => storeSet m identity (pyStr name) s),
        res.2.1, res.2.2⟩
    else
      ⟨Except.error (ABError.validationError (unknownSideMsg res.1 (pyStr name))),
        prevSide, store, res.2.1, res.2.2⟩

/-- The `current_side` property (lines 85-90): returns `self._side`. -/
def BaseAB.current_side (side : Option String) : Option String :=
  side

/-- Arguments of a `storage.record(identity, name, side)` call forwarded by
`BaseAB.record`. -/
structure RecordCall where
  identity : Option String
  name : Option String
  side : Option String
deriving Repr, DecidableEq

/-- `BaseAB.record` (lines 141-147): forwards `(self.identity, self.name,
side)` to the storage collaborator when one is attached, otherwise does
nothing.  Returns the forwarded call, if any; the method reads no other
state and mutates nothing. -/
def BaseAB.record (identity name : Option String) (storageAttached : Bool)
    (side : Option String) : Option RecordCall :=
  if storageAttached then some ⟨identity, name, side⟩ else none

/-- Modelled from the spec: `record(side=optional)` "forwards a conversion
event for (identity, name, side-or-current) to the storage collaborator if
attached; no-op otherwise" — i.e. when `side` is omitted the currently
selected side is recorded.  Stated here only for comparison with
`BaseAB.record`, which is translated from the source. -/
def record_spec (identity name currentSide : Option String) (storageAttached : Bool)
    (side : Option String) : Option RecordCall :=
  if storageAttached then
    some ⟨identity, name, if side.isSome then side else currentSide⟩
  else none

/-- True exactly on a `configError` result. -/
def isConfigErr : Except ABError String → Bool
  | Except.error (ABError.configError _) => true
  | _ => false

/-- True exactly on a `validationError` result. -/
def isValidationErr : Except ABError String → Bool
  | Except.error (ABError.validationError _) => true
  | _ => false

/-- An attribute of a `SimpleAB` instance: whether it is callable, and the
value it returns when called. -/
structure PyAttr where
  callable : Bool
  retVal : String
deriving Repr, DecidableEq

/-- A `SimpleAB` instance: its `name`, `identity`, and the attribute
bindings visible on it via `dir` / `getattr`.  The members inherited from
`BaseAB` (`test`, `record`, `storage`, ... ) all have lowercase multi-char
names and are dropped by the `allowed_sides` filter, so listing only the
subclass-specific bindings is faithful. -/
structure SimpleAB where
  identity : Option String
  name : Option String
  attrs : List (String × PyAttr)
deriving Repr, DecidableEq

/-- The filter of `SimpleAB.allowed_sides`: `len(x) == 1 and ('A' <= x <= 'Z')`
(Python string comparison on single-character strings is character
comparison). -/
def isUpperSingle (x : String) : Bool :=
  match x.toList with
  | [c] => decide ('A' ≤ c) && decide (c ≤ 'Z')
  | _ => false

/-- `SimpleAB.allowed_sides` (lines 175-177):
`[x for x in dir(self) if len(x) == 1 and ('A' <= x <= 'Z')]`. -/
def SimpleAB.allowed_sides (t : SimpleAB) : List String :=
  (t.attrs.map Prod.fst).filter isUpperSingle

/-- `SimpleAB.apply_side` (lines 182-187): `getattr(self, side, None)`,
raise `ABTestError('Side "%s" is not implemented ...')` unless the result
is callable, else call it. -/
def SimpleAB.apply_side (t : SimpleAB) (side : String) : Except ABError String :=
  match (t.attrs.find? (fun p => p.1 == side)).map (fun p => p.2) with
  | some a =>
      if a.callable then Except.ok a.retVal
      else Except.error (ABError.validationError (notImplementedMsg side (pyStr t.name)))
  | none => Except.error (ABError.validationError (notImplementedMsg side (pyStr t.name)))

/-- `SimpleAB` inherits `BaseAB.test`, instantiating the extension points
with its own `allowed_sides` and `apply_side`; `select_side` is
`random.choice(self.allowed_sides)`, abstracted by `selectResult`. -/
def SimpleAB.test (t : SimpleAB) (store : Option StoreMap)
    (prevSide forceSide selectResult : Option String) : TestResult :=
  BaseAB.test t.name t.allowed_sides t.apply_side t.identity store
    prevSide forceSide selectResult

/-- A `ConfigurableAB` instance after construction: `identity`, `name`, and
`sides`, the configured Python dict (`none` models `sides=None`), as an
association list of (side, value) pairs. -/
structure ConfigurableAB where
  identity : Option String
  name : Option String
  sides : Option (List (String × String))
deriving Repr, DecidableEq

/-- `ConfigurableAB.allowed_sides` (lines 222-226):
`self.sides.keys()` when `self.sides` is truthy, else `[]`. -/
def ConfigurableAB.allowed_sides (t : ConfigurableAB) : List String :=
  match t.sides with
  | some d => if !d.isEmpty then d.map Prod.fst else []
  | none => []

/-- `ConfigurableAB.apply_side` (lines 233-234): `return self.sides[side]`.
A missing key raises Python `KeyError`; subscripting `None` raises
`TypeError` (neither is reachable from `test`, whose validation guarantees
`side` is a key of a truthy `sides`). -/
def ConfigurableAB.apply_side (t : ConfigurableAB) (side : String) : Except ABError String :=
  match t.sides with
  | none => Except.error (ABError.typeError "NoneType object is not subscriptable")
  | some d =>
      match (d.find? (fun p => p.1 == side)).map (fun p => p.2) with
      | some v => Except.ok v
      | none => Except.error (ABError.keyError side)

/-- `ConfigurableAB` inherits `BaseAB.test`; `select_side` is the custom
selector if one was configured, else `random.choice(self.allowed_sides)` —
abstracted by `selectResult` either way. -/
def ConfigurableAB.test (t : ConfigurableAB) (store : Option StoreMap)
    (prevSide forceSide selectResult : Option String) : TestResult :=
  BaseAB.test t.name t.allowed_sides t.apply_side t.identity store
    prevSide forceSide selectResult

/-- Python exceptions raised outside the library's own error class during
construction. -/
inductive PyErr where
  | attributeError (attr : String)
deriving Repr, DecidableEq

/-- Reading `self.sides` on a `ConfigurableAB` instance: the outer `Option`
is `none` while `ConfigurableAB.__init__` has not yet executed
`self.sides = sides` (there is no class-level `sides` attribute, so the
lookup raises `AttributeError`); afterwards it holds the assigned Python
value (`None` or a dict). -/
def confSidesAttr (sidesAttr : Option (Option (List (String × String)))) :
    Except PyErr (Option (List (String × String))) :=
  match sidesAttr with
  | none => Except.error (PyErr.attributeError "sides")
  | some v => Except.ok v

/-- Evaluating the `ConfigurableAB.allowed_sides` property against the
current state of the `sides` attribute (it reads `self.sides` first). -/
def confAllowedSidesAttr (sidesAttr : Option (Option (List (String × String)))) :
    Except PyErr (List String) :=
  match confSidesAttr sidesAttr with
  | Except.error e => Except.error e
  | Except.ok (some d) => Except.ok (if !d.isEmpty then d.map Prod.fst else [])
  | Except.ok none => Except.ok []

/-- Outcome of a successful `ConfigurableAB(...)` construction: the
instance, and the `storage.create(name, allowed_sides)` call issued during
`BaseAB.__init__`, if any. -/
structure ConfInitOutcome where
  inst : ConfigurableAB
  createCall : Option (Option String × List String)
deriving Repr, DecidableEq

/-- `ConfigurableAB.__init__` (lines 207-220).  It first runs
`super(ConfigurableAB, self).__init__(identity, storage)`, i.e.
`BaseAB.__init__` (lines 72-83), which sets `identity`, `storage`,
`_side = None` and then, when storage is attached, evaluates
`self.storage.create(self.name, self.allowed_sides)`.  At that point
`self.name` still resolves to the class default `None`, and
`self.allowed_sides` reads `self.sides`, which `ConfigurableAB.__init__`
assigns only after the `super()` call returns — so the attribute is
missing.  Only afterwards are `self.name`, `self.sides`, `self.selector`
assigned. -/
def ConfigurableAB.init (identity : Option String) (storageAttached : Bool)
    (name : Option String) (sides : Option (List (String × String))) :
    Except PyErr ConfInitOutcome :=
  if storageAttached then
    match confAllowedSidesAttr none with
    | Except.error e => Except.error e
    | Except.ok al => Except.ok ⟨⟨identity, name, sides⟩, some (none, al)⟩
  else
    Except.ok ⟨⟨identity, name, sides⟩, none⟩

/-- A truthy optional string is `some` of a non-empty string. -/
theorem truthy_some_iff {s : String} : truthy (some s) = true ↔ s ≠ "" := by
  constructor
  · intro h hs
    subst hs
    simp only [truthy] at h
    exact absurd h (by decide)
  · intro h
    have hE : s.isEmpty = false := by
      cases hE : s.isEmpty
      · rfl
      · exact absurd ((String.isEmpty_iff s).mp hE) h
    simp [truthy, hE]

/-- Unfolding of the side-validation test. -/
theorem sideOk_true_iff {allowed : List String} {side : Option String} :
    sideOk allowed side = true ↔
      ∃ s, side = some s ∧ s ≠ "" ∧ s ∈ allowed := by
  cases side with
  | none => simp [sideOk]
  | some s =>
    have hrw : sideOk allowed (some s) = (truthy (some s) && allowed.contains s) := rfl
    rw [hrw, Bool.and_eq_true, truthy_some_iff]
    simp

/-- A side that passes validation is `some` of its `getD` default. -/
theorem sideOk_some_getD {allowed : List String} {side : Option String}
    (h : sideOk allowed side = true) : some (side.getD "") = side := by
  rcases sideOk_true_iff.mp h with ⟨s, rfl, _, _⟩
  rfl

/-- Reading back the side just written for the same (identity, name) key. -/
theorem storeGet_storeSet_same (m : StoreMap) (identity : Option String)
    (nm s : String) : storeGet (storeSet m identity nm s) identity nm = some s := by
  simp [storeGet, storeSet, List.find?]

/-- A truthy forced side wins the resolution outright: neither the storage
nor the selection strategy is consulted. -/
theorem resolveSide_forced {store : Option StoreMap} {identity : Option String}
    {nm : String} {f sel : Option String} (hf : truthy f = true) :
    resolveSide store identity nm f sel = (f, false, false) := by
  simp [resolveSide, hf]

/-- A falsy forced side behaves exactly as an absent one. -/
theorem resolveSide_falsy_forced {store : Option StoreMap} {identity : Option String}
    {nm : String} {f sel : Option String} (hf : truthy f = false) :
    resolveSide store identity nm f sel = resolveSide store identity nm none sel := by
  have hnone : truthy (none : Option String) = false := rfl
  cases store <;> simp [resolveSide, hf, hnone]

/-- With no forced side, an attached storage whose lookup is truthy decides
the resolution; the selection strategy is not consulted. -/
theorem resolveSide_stored {m : StoreMap} {identity : Option String}
    {nm : String} {f sel : Option String} (hf : truthy f = false)
    (hg : truthy (storeGet m identity nm) = true) :
    resolveSide (some m) identity nm f sel = (storeGet m identity nm, true, false) := by
  simp [resolveSide, hf, hg]

/-- With no (truthy) forced side and a falsy storage lookup, the selection
strategy decides the resolution. -/
theorem resolveSide_select {m : StoreMap} {identity : Option String}
    {nm : String} {f sel : Option String} (hf : truthy f = false)
    (hg : truthy (storeGet m identity nm) = false) :
    resolveSide (some m) identity nm f sel = (sel, true, true) := by
  simp [resolveSide, hf, hg]

/-- `BaseAB.test` when the name check fails. -/
theorem BaseAB.test_name_falsy {name : Option String} {allowed : List String}
    {apply : String → Except ABError String} {identity : Option String}
    {store : Option StoreMap} {prevSide forceSide selectResult : Option String}
    (hn : truthy name = false) :
    BaseAB.test name allowed apply identity store prevSide forceSide selectResult =
      ⟨Except.error (ABError.configError "Test should be named"),
        prevSide, store, false, false⟩ := by
  simp [BaseAB.test, hn]

/-- `BaseAB.test` when the sides check fails. -/
theorem BaseAB.test_sides_empty {name : Option String} {allowed : List String}
    {apply : String → Except ABError String} {identity : Option String}
    {store : Option StoreMap} {prevSide forceSide selectResult : Option String}
    (hn : truthy name = true) (ha : allowed.isEmpty = true) :
    BaseAB.test name allowed apply identity store prevSide forceSide selectResult =
      ⟨Except.error (ABError.configError (sidesNotGivenMsg (pyStr name))),
        prevSide, store, false, false⟩ := by
  simp [BaseAB.test, hn, ha]

/-- `BaseAB.test` when both checks pass and the resolved side validates. -/
theorem BaseAB.test_success_eq {name : Option String} {allowed : List String}
    {apply : String → Except ABError String} {identity : Option String}
    {store : Option StoreMap} {prevSide forceSide selectResult : Option String}
    (hn : truthy name = true) (ha : allowed.isEmpty = false)
    (hok : sideOk allowed (resolveSide store identity (pyStr name) forceSide selectResult).1 = true) :
    BaseAB.test name allowed apply identity store prevSide forceSide selectResult =
      ⟨apply ((resolveSide store identity (pyStr name) forceSide selectResult).1.getD ""),
        some ((resolveSide store identity (pyStr name) forceSide selectResult).1.getD ""),
        store.map (fun mm => storeSet mm identity (pyStr name)
          ((resolveSide store identity (pyStr name) forceSide selectResult).1.getD "")),
        (resolveSide store identity (pyStr name) forceSide selectResult).2.1,
        (resolveSide store identity (pyStr name) forceSide selectResult).2.2⟩ := by
  simp [BaseAB.test, hn, ha, hok]

/-- `BaseAB.test` when both checks pass and the resolved side fails
validation. -/
theorem BaseAB.test_invalid_eq {name : Option String} {allowed : List String}
    {apply : String → Except ABError String} {identity : Option String}
    {store : Option StoreMap} {prevSide forceSide selectResult : Option String}
    (hn : truthy name = true) (ha : allowed.isEmpty = false)
    (hok : sideOk allowed (resolveSide store identity (pyStr name) forceSide selectResult).1 = false) :
    BaseAB.test name allowed apply identity store prevSide forceSide selectResult =
      ⟨Except.error (ABError.validationError
          (unknownSideMsg (resolveSide store identity (pyStr name) forceSide selectResult).1 (pyStr name))),
        prevSide, store,
        (resolveSide store identity (pyStr name) forceSide selectResult).2.1,
        (resolveSide store identity (pyStr name) forceSide selectResult).2.2⟩ := by
  simp [BaseAB.test, hn, ha, hok]

/-- Inversion: a `test` call that returns a value passed both configuration
checks, validated its resolved side, and returned `apply` of that side. -/
theorem BaseAB.test_ok_inv {name : Option String} {allowed : List String}
    {apply : String → Except ABError String} {identity : Option String}
    {store : Option StoreMap} {prevSide forceSide selectResult : Option String} {v : String}
    (h : (BaseAB.test name allowed apply identity store prevSide forceSide selectResult).result =
      Except.ok v) :
    truthy name = true ∧ allowed.isEmpty = false ∧
    sideOk allowed (resolveSide store identity (pyStr name) forceSide selectResult).1 = true ∧
    apply ((resolveSide store identity (pyStr name) forceSide selectResult).1.getD "") =
      Except.ok v := by
  cases hn : truthy name with
  | false => rw [BaseAB.test_name_falsy hn] at h; exact absurd h (by simp)
  | true =>
    cases ha : allowed.isEmpty with
    | true => rw [BaseAB.test_sides_empty hn ha] at h; exact absurd h (by simp)
    | false =>
      cases hok : sideOk allowed (resolveSide store identity (pyStr name) forceSide selectResult).1 with
      | false => rw [BaseAB.test_invalid_eq hn ha hok] at h; exact absurd h (by simp)
      | true =>
        rw [BaseAB.test_success_eq hn ha hok] at h
        exact ⟨rfl, rfl, rfl, h⟩

/-- C4: `test()` fails with the configuration error when the name is
unset/empty or `allowed_sides` is empty, and this check happens before any
side resolution (`usedGet = usedSel = false`), state change
(`finalSide = prevSide`), or storage interaction (`finalStore = store`). -/
theorem c4_config_error_first (name : Option String) (allowed : List String)
    (apply : String → Except ABError String) (identity : Option String)
    (store : Option StoreMap) (prevSide forceSide selectResult : Option String)
    (h : truthy name = false ∨ allowed.isEmpty = true) :
    isConfigErr (BaseAB.test name allowed apply identity store prevSide forceSide selectResult).result = true ∧
    (BaseAB.test name allowed apply identity store prevSide forceSide selectResult).finalSide = prevSide ∧
    (BaseAB.test name allowed apply identity store prevSide forceSide selectResult).finalStore = store ∧
    (BaseAB.test name allowed apply identity store prevSide forceSide selectResult).usedGet = false ∧
    (BaseAB.test name allowed apply identity store prevSide forceSide selectResult).usedSel = false := by
  rcases h with hn | ha
  · rw [BaseAB.test_name_falsy hn]
    exact ⟨rfl, rfl, rfl, rfl, rfl⟩
  · cases hn : truthy name with
    | false =>
      rw [BaseAB.test_name_falsy hn]
      exact ⟨rfl, rfl, rfl, rfl, rfl⟩
    | true =>
      rw [BaseAB.test_sides_empty hn ha]
      exact ⟨rfl, rfl, rfl, rfl, rfl⟩

/-- C4 witness: calling `test` with no name on a configured side list. -/
theorem c4_witness :
    isConfigErr (BaseAB.test none ["A"] (fun s => Except.ok s) none none none none none).result = true ∧
    (BaseAB.test none ["A"] (fun s => Except.ok s) none none none none none).finalSide = none ∧
    (BaseAB.test none ["A"] (fun s => Except.ok s) none none none none none).finalStore = none ∧
    (BaseAB.test none ["A"] (fun s => Except.ok s) none none none none none).usedGet = false ∧
    (BaseAB.test none ["A"] (fun s => Except.ok s) none none none none none).usedSel = false :=
  c4_config_error_first none ["A"] (fun s => Except.ok s) none none none none none
    (Or.inl (by decide))

/-- C2: on a properly configured instance, every `test()` call that returns
successfully records a side that is a member of `allowed_sides`, and any
resolution producing a side outside that set makes `test()` fail with the
validation error. -/
theorem c2_resolved_side_member (name : Option String) (allowed : List String)
    (apply : String → Except ABError String) (identity : Option String)
    (store : Option StoreMap) (prevSide forceSide selectResult : Option String)
    (hn : truthy name = true) (ha : allowed.isEmpty = false) :
    (∀ v, (BaseAB.test name allowed apply identity store prevSide forceSide selectResult).result = Except.ok v →
      ∃ s, (BaseAB.test name allowed apply identity store prevSide forceSide selectResult).finalSide = some s ∧
        s ∈ allowed) ∧
    (∀ s, (resolveSide store identity (pyStr name) forceSide selectResult).1 = some s →
      s ∉ allowed →
      isValidationErr (BaseAB.test name allowed apply identity store prevSide forceSide selectResult).result = true) := by
  constructor
  · intro v hv
    obtain ⟨-, -, hok, -⟩ := BaseAB.test_ok_inv hv
    rw [BaseAB.test_success_eq hn ha hok]
    obtain ⟨s, hs, -, hmem⟩ := sideOk_true_iff.mp hok
    refine ⟨s, ?_, hmem⟩
    rw [hs]
    rfl
  · intro s hs hmem
    have hok : sideOk allowed (resolveSide store identity (pyStr name) forceSide selectResult).1 = false := by
      cases hok : sideOk allowed (resolveSide store identity (pyStr name) forceSide selectResult).1 with
      | false => rfl
      | true =>
        obtain ⟨t, ht, -, htmem⟩ := sideOk_true_iff.mp hok
        rw [hs] at ht
        cases ht
        exact absurd htmem hmem
    rw [BaseAB.test_invalid_eq hn ha hok]
    rfl

/-- C2 witness: a forced side outside `allowed_sides` resolves to itself
and makes the call fail with the validation error. -/
theorem c2_witness :
    isValidationErr (BaseAB.test (some "T2") ["A"] (fun s => Except.ok s) none none none (some "B") none).result = true :=
  (c2_resolved_side_member (some "T2") ["A"] (fun s => Except.ok s) none none none (some "B") none
    (by decide) (by decide)).2 "B" (by decide) (by decide)

/-- C10: a falsy forced side (`None` or `''`) is treated exactly as if no
forced side had been supplied — the whole call behaves identically — and a
falsy side returned by `storage.get_side` is treated as absent, so the
resolution falls through to fresh selection. -/
theorem c10_falsy_treated_as_absent :
    (∀ (name : Option String) (allowed : List String)
        (apply : String → Except ABError String) (identity : Option String)
        (store : Option StoreMap) (prevSide selectResult f : Option String),
        truthy f = false →
        BaseAB.test name allowed apply identity store prevSide f selectResult =
          BaseAB.test name allowed apply identity store prevSide none selectResult) ∧
    (∀ (m : StoreMap) (identity : Option String) (nm : String) (f selectResult : Option String),
        truthy f = false → truthy (storeGet m identity nm) = false →
        resolveSide (some m) identity nm f selectResult = (selectResult, true, true)) := by
  constructor
  · intro name allowed apply identity store prevSide selectResult f hf
    simp only [BaseAB.test, resolveSide_falsy_forced hf]
  · intro m identity nm f selectResult hf hg
    exact resolveSide_select hf hg

/-- C10 witness: forcing the empty string behaves as forcing nothing. -/
theorem c10_witness :
    BaseAB.test (some "Tx") ["A"] (fun s => Except.ok s) none none none (some "") (some "A") =
      BaseAB.test (some "Tx") ["A"] (fun s => Except.ok s) none none none none (some "A") :=
  c10_falsy_treated_as_absent.1 (some "Tx") ["A"] (fun s => Except.ok s) none none none
    (some "A") (some "") (by decide)

/-- C5 counterexample: the claim quantifies over every forced side not in
`allowed_sides`, but the falsy forced side `''` (not a member of the
allowed sides `["A"]`) does not produce a validation error — the call falls
through to fresh selection and succeeds. -/
theorem c5_counterexample :
    ¬ ("" ∈ ConfigurableAB.allowed_sides ⟨none, some "T5", some [("A", "va")]⟩) ∧
    (ConfigurableAB.test ⟨none, some "T5", some [("A", "va")]⟩ none none (some "") (some "A")).result =
      Except.ok "va" ∧
    isValidationErr (ConfigurableAB.test ⟨none, some "T5", some [("A", "va")]⟩ none none (some "") (some "A")).result =
      false := by
  decide

/-- C5 (amended): on a properly configured instance, forcing a NON-EMPTY
side that is not a member of `allowed_sides` fails with the validation
error and leaves the current side, the storage state, and the
`get_side` / `select_side` collaborators untouched. -/
theorem c5_forced_nonmember_fails (name : Option String) (allowed : List String)
    (apply : String → Except ABError String) (identity : Option String)
    (store : Option StoreMap) (prevSide selectResult : Option String) (f : String)
    (hn : truthy name = true) (ha : allowed.isEmpty = false)
    (hf : f ≠ "") (hmem : f ∉ allowed) :
    isValidationErr (BaseAB.test name allowed apply identity store prevSide (some f) selectResult).result = true ∧
    (BaseAB.test name allowed apply identity store prevSide (some f) selectResult).finalSide = prevSide ∧
    (BaseAB.test name allowed apply identity store prevSide (some f) selectResult).finalStore = store ∧
    (BaseAB.test name allowed apply identity store prevSide (some f) selectResult).usedGet = false ∧
    (BaseAB.test name allowed apply identity store prevSide (some f) selectResult).usedSel = false := by
  have hres : resolveSide store identity (pyStr name) (some f) selectResult = (some f, false, false) :=
    resolveSide_forced (truthy_some_iff.mpr hf)
  have hok : sideOk allowed (resolveSide store identity (pyStr name) (some f) selectResult).1 = false := by
    rw [hres]
    cases hok : sideOk allowed (some f) with
    | false => rfl
    | true =>
      obtain ⟨t, ht, -, htmem⟩ := sideOk_true_iff.mp hok
      cases ht
      exact absurd htmem hmem
  rw [BaseAB.test_invalid_eq hn ha hok, hres]
  exact ⟨rfl, rfl, rfl, rfl, rfl⟩

/-- C5 witness: forcing side "B" on a test whose only allowed side is "A". -/
theorem c5_witness :
    isValidationErr (BaseAB.test (some "T5w") ["A"] (fun s => Except.ok s) none none none (some "B") none).result = true ∧
    (BaseAB.test (some "T5w") ["A"] (fun s => Except.ok s) none none none (some "B") none).finalSide = none ∧
    (BaseAB.test (some "T5w") ["A"] (fun s => Except.ok s) none none none (some "B") none).finalStore = none ∧
    (BaseAB.test (some "T5w") ["A"] (fun s => Except.ok s) none none none (some "B") none).usedGet = false ∧
    (BaseAB.test (some "T5w") ["A"] (fun s => Except.ok s) none none none (some "B") none).usedSel = false :=
  c5_forced_nonmember_fails (some "T5w") ["A"] (fun s => Except.ok s) none none none none "B"
    (by decide) (by decide) (by decide) (by decide)

/-- C1 counterexample: with the mapping `{'': 'vempty', 'A': 'va'}` the
empty string is a member of `allowed_sides` and is mapped to `'vempty'`,
yet `test(force_side='')` (selector picking "A") returns `'va'` and leaves
`current_side = 'A'`, not `''`. -/
theorem c1_counterexample :
    ("" ∈ ConfigurableAB.allowed_sides ⟨none, some "T1", some [("", "vempty"), ("A", "va")]⟩) ∧
    ConfigurableAB.apply_side ⟨none, some "T1", some [("", "vempty"), ("A", "va")]⟩ "" =
      Except.ok "vempty" ∧
    (ConfigurableAB.test ⟨none, some "T1", some [("", "vempty"), ("A", "va")]⟩ none none (some "") (some "A")).result =
      Except.ok "va" ∧
    (ConfigurableAB.test ⟨none, some "T1", some [("", "vempty"), ("A", "va")]⟩ none none (some "") (some "A")).result ≠
      Except.ok "vempty" ∧
    (ConfigurableAB.test ⟨none, some "T1", some [("", "vempty"), ("A", "va")]⟩ none none (some "") (some "A")).finalSide =
      some "A" ∧
    (ConfigurableAB.test ⟨none, some "T1", some [("", "vempty"), ("A", "va")]⟩ none none (some "") (some "A")).finalSide ≠
      some "" := by
  decide

/-- C1 (amended): for a `ConfigurableAB` with a truthy name, forcing a
NON-EMPTY member `f` of `allowed_sides` returns exactly the value the
mapping associates with `f` (i.e. `apply_side f`), and `current_side`
afterwards equals `f`. -/
theorem c1_forced_member_value (t : ConfigurableAB) (store : Option StoreMap)
    (prevSide selectResult : Option String) (f v : String)
    (hn : truthy t.name = true) (hf : f ≠ "") (hmem : f ∈ t.allowed_sides)
    (hv : t.apply_side f = Except.ok v) :
    (t.test store prevSide (some f) selectResult).result = Except.ok v ∧
    BaseAB.current_side (t.test store prevSide (some f) selectResult).finalSide = some f := by
  have ha : t.allowed_sides.isEmpty = false := by
    simp [List.isEmpty_iff, List.ne_nil_of_mem hmem]
  have hres : resolveSide store t.identity (pyStr t.name) (some f) selectResult = (some f, false, false) :=
    resolveSide_forced (truthy_some_iff.mpr hf)
  have hok : sideOk t.allowed_sides (resolveSide store t.identity (pyStr t.name) (some f) selectResult).1 = true := by
    rw [hres]
    exact sideOk_true_iff.mpr ⟨f, rfl, hf, hmem⟩
  rw [ConfigurableAB.test, BaseAB.test_success_eq hn ha hok, hres]
  exact ⟨hv, rfl⟩

/-- C1 witness: forcing side "B" in a two-sided configured test. -/
theorem c1_witness :
    (ConfigurableAB.test ⟨none, some "MyTest", some [("A", "Side A"), ("B", "Side B")]⟩ none none (some "B") none).result =
      Except.ok "Side B" ∧
    BaseAB.current_side (ConfigurableAB.test ⟨none, some "MyTest", some [("A", "Side A"), ("B", "Side B")]⟩ none none (some "B") none).finalSide =
      some "B" :=
  c1_forced_member_value ⟨none, some "MyTest", some [("A", "Side A"), ("B", "Side B")]⟩
    none none none "B" "Side B" (by decide) (by decide) (by decide) (by decide)

/-- C6 counterexample: a `SimpleAB` with a non-callable attribute "Y"
counts "Y" among its allowed sides, so `test(force_side='Y')` passes
validation, assigns `_side = 'Y'`, and only then raises from `apply_side`
— the failed call leaves `current_side` set to its side. -/
theorem c6_counterexample :
    (SimpleAB.test ⟨none, some "T6", [("A", ⟨true, "Side A"⟩), ("Y", ⟨false, "nope"⟩)]⟩ none none (some "Y") none).result =
      Except.error (ABError.validationError (notImplementedMsg "Y" "T6")) ∧
    (SimpleAB.test ⟨none, some "T6", [("A", ⟨true, "Side A"⟩), ("Y", ⟨false, "nope"⟩)]⟩ none none (some "Y") none).finalSide =
      some "Y" ∧
    BaseAB.current_side (SimpleAB.test ⟨none, some "T6", [("A", ⟨true, "Side A"⟩), ("Y", ⟨false, "nope"⟩)]⟩ none none (some "Y") none).finalSide ≠
      none := by
  decide

/-- C6 (amended): `current_side` after a `test()` call equals the side
resolved by that call whenever the call passed the configuration checks
and side validation — even if the call then raised inside `apply_side` —
and is left at its previous value otherwise. -/
theorem c6_current_side_characterization (name : Option String) (allowed : List String)
    (apply : String → Except ABError String) (identity : Option String)
    (store : Option StoreMap) (prevSide forceSide selectResult : Option String) :
    BaseAB.current_side (BaseAB.test name allowed apply identity store prevSide forceSide selectResult).finalSide =
      if truthy name && !allowed.isEmpty &&
          sideOk allowed (resolveSide store identity (pyStr name) forceSide selectResult).1 then
        (resolveSide store identity (pyStr name) forceSide selectResult).1
      else prevSide := by
  cases hn : truthy name with
  | false => rw [BaseAB.test_name_falsy hn]; simp [BaseAB.current_side, hn]
  | true =>
    cases ha : allowed.isEmpty with
    | true => rw [BaseAB.test_sides_empty hn ha]; simp [BaseAB.current_side, hn, ha]
    | false =>
      cases hok : sideOk allowed (resolveSide store identity (pyStr name) forceSide selectResult).1 with
      | false => rw [BaseAB.test_invalid_eq hn ha hok]; simp [BaseAB.current_side, hn, ha, hok]
      | true =>
        rw [BaseAB.test_success_eq hn ha hok]
        simp only [BaseAB.current_side, hn, ha, hok, Bool.not_false, Bool.and_true, Bool.and_self,
          if_true, Bool.true_and]
        exact sideOk_some_getD hok

/-- C7 counterexample: a single-character attribute "X" in 'A'..'Z' that is
NOT invocable is nevertheless a member of `allowed_sides` (the filter never
checks callability); invoking it fails only later, in `apply_side`. -/
theorem c7_counterexample :
    ("X" ∈ SimpleAB.allowed_sides ⟨none, some "T7", [("A", ⟨true, "Side A"⟩), ("X", ⟨false, "boom"⟩)]⟩) ∧
    (([("A", (⟨true, "Side A"⟩ : PyAttr)), ("X", ⟨false, "boom"⟩)].find? (fun p => p.1 == "X")).map (fun p => p.2.callable)) =
      some false ∧
    isValidationErr (SimpleAB.apply_side ⟨none, some "T7", [("A", ⟨true, "Side A"⟩), ("X", ⟨false, "boom"⟩)]⟩ "X") =
      true := by
  decide

/-- C7 (amended): `allowed_sides` of a `SimpleAB` is exactly the set of
single-character identifiers in 'A'..'Z' that are bound on the instance,
whether or not the bound attribute is invocable. -/
theorem c7_allowed_sides_membership (t : SimpleAB) (x : String) :
    x ∈ t.allowed_sides ↔ x ∈ t.attrs.map Prod.fst ∧ isUpperSingle x = true := by
  simp [SimpleAB.allowed_sides, List.mem_filter]

/-- C7 witness: membership applied to a concrete instance and side. -/
theorem c7_witness :
    "B" ∈ SimpleAB.allowed_sides ⟨none, some "T7w", [("B", ⟨true, "Side B"⟩)]⟩ :=
  (c7_allowed_sides_membership ⟨none, some "T7w", [("B", ⟨true, "Side B"⟩)]⟩ "B").mpr
    ⟨by decide, by decide⟩

/-- C3: side resolution follows the precedence forced > stored > freshly
selected, and storage round-trips.  Conjunct 1: a (truthy) forced side wins
outright, consulting neither storage nor selection.  Conjunct 2: with no
forced side, a previously stored side S (necessarily non-empty, since
`set_side` only ever receives validated sides) in `allowed_sides` makes
`test()` resolve to S and return S's value without invoking the selection
strategy.  Conjunct 3: after a successful `test()` persisted its side, a
second call sharing identity, name, configuration and the resulting
storage resolves to the same side with the same value, without invoking
the selection strategy. -/
theorem c3_precedence_and_roundtrip (name : Option String) (allowed : List String)
    (apply : String → Except ABError String) (identity : Option String)
    (m : StoreMap) (prevSide prevSide2 selectResult selectResult2 : Option String) (v : String) :
    (∀ (f : String) (st : Option StoreMap) (sel : Option String), f ≠ "" →
        resolveSide st identity (pyStr name) (some f) sel = (some f, false, false)) ∧
    (∀ s : String, truthy name = true → allowed.isEmpty = false →
        storeGet m identity (pyStr name) = some s → s ≠ "" → s ∈ allowed →
        (BaseAB.test name allowed apply identity (some m) prevSide none selectResult).result = apply s ∧
        (BaseAB.test name allowed apply identity (some m) prevSide none selectResult).finalSide = some s ∧
        (BaseAB.test name allowed apply identity (some m) prevSide none selectResult).usedSel = false) ∧
    ((BaseAB.test name allowed apply identity (some m) prevSide none selectResult).result = Except.ok v →
        (BaseAB.test name allowed apply identity
            (BaseAB.test name allowed apply identity (some m) prevSide none selectResult).finalStore
            prevSide2 none selectResult2).result = Except.ok v ∧
        (BaseAB.test name allowed apply identity
            (BaseAB.test name allowed apply identity (some m) prevSide none selectResult).finalStore
            prevSide2 none selectResult2).finalSide =
          (BaseAB.test name allowed apply identity (some m) prevSide none selectResult).finalSide ∧
        (BaseAB.test name allowed apply identity
            (BaseAB.test name allowed apply identity (some m) prevSide none selectResult).finalStore
            prevSide2 none selectResult2).usedSel = false) := by
  refine ⟨?_, ?_, ?_⟩
  · intro f st sel hf
    exact resolveSide_forced (truthy_some_iff.mpr hf)
  · intro s hn ha hg hs hmem
    have hres : resolveSide (some m) identity (pyStr name) none selectResult =
        (storeGet m identity (pyStr name), true, false) := by
      refine resolveSide_stored rfl ?_
      rw [hg]
      exact truthy_some_iff.mpr hs
    have hok : sideOk allowed (resolveSide (some m) identity (pyStr name) none selectResult).1 = true := by
      rw [hres, hg]
      exact sideOk_true_iff.mpr ⟨s, rfl, hs, hmem⟩
    rw [BaseAB.test_success_eq hn ha hok, hres, hg]
    exact ⟨rfl, rfl, rfl⟩
  · intro h1
    obtain ⟨hn, ha, hok, happly⟩ := BaseAB.test_ok_inv h1
    obtain ⟨s, hs, hsne, hsmem⟩ := sideOk_true_iff.mp hok
    have heq1 := @BaseAB.test_success_eq name allowed apply identity (some m) prevSide none selectResult hn ha hok
    rw [hs] at heq1
    have hside1 : (BaseAB.test name allowed apply identity (some m) prevSide none selectResult).finalSide = some s := by
      rw [heq1]
      rfl
    have hstore1 : (BaseAB.test name allowed apply identity (some m) prevSide none selectResult).finalStore =
        some (storeSet m identity (pyStr name) s) := by
      rw [heq1]
      rfl
    have hg2 : storeGet (storeSet m identity (pyStr name) s) identity (pyStr name) = some s :=
      storeGet_storeSet_same m identity (pyStr name) s
    have hres2 : resolveSide (some (storeSet m identity (pyStr name) s)) identity (pyStr name) none selectResult2 =
        (some s, true, false) := by
      have := @resolveSide_stored (storeSet m identity (pyStr name) s)
        identity (pyStr name) none selectResult2
        rfl (by rw [hg2]; exact truthy_some_iff.mpr hsne)
      rw [hg2] at this
      exact this
    have hok2 : sideOk allowed (resolveSide (some (storeSet m identity (pyStr name) s)) identity (pyStr name) none selectResult2).1 = true := by
      rw [hres2]
      exact sideOk_true_iff.mpr ⟨s, rfl, hsne, hsmem⟩
    rw [hstore1, hside1, BaseAB.test_success_eq hn ha hok2, hres2]
    rw [hs] at happly
    exact ⟨happly, rfl, rfl⟩

/-- C3 witness: a first call (fresh selection of "A") persists the side;
the second call sharing the resulting storage resolves "A" again without
selecting. -/
theorem c3_witness :
    (BaseAB.test (some "T3") ["A"] (fun s => Except.ok (String.append "value " s)) none
        (BaseAB.test (some "T3") ["A"] (fun s => Except.ok (String.append "value " s)) none (some []) none none (some "A")).finalStore
        none none none).result = Except.ok "value A" ∧
    (BaseAB.test (some "T3") ["A"] (fun s => Except.ok (String.append "value " s)) none
        (BaseAB.test (some "T3") ["A"] (fun s => Except.ok (String.append "value " s)) none (some []) none none (some "A")).finalStore
        none none none).finalSide =
      (BaseAB.test (some "T3") ["A"] (fun s => Except.ok (String.append "value " s)) none (some []) none none (some "A")).finalSide ∧
    (BaseAB.test (some "T3") ["A"] (fun s => Except.ok (String.append "value " s)) none
        (BaseAB.test (some "T3") ["A"] (fun s => Except.ok (String.append "value " s)) none (some []) none none (some "A")).finalStore
        none none none).usedSel = false :=
  (c3_precedence_and_roundtrip (some "T3") ["A"] (fun s => Except.ok (String.append "value " s))
    none [] none none (some "A") none "value A").2.2 (by decide)

/-- C8: constructing a `ConfigurableAB` with an attached storage
collaborator does NOT succeed: `BaseAB.__init__` evaluates
`self.allowed_sides` (which reads `self.sides`) before
`ConfigurableAB.__init__` has assigned the `sides` attribute, so the
construction raises `AttributeError` — and `self.name` would still be
`None` at that point in any case.  Without storage the construction
succeeds and no `create` call is issued. -/
theorem c8_init_with_storage_raises :
    ConfigurableAB.init (some "u") true (some "MyTest") (some [("A", "Side A")]) =
      Except.error (PyErr.attributeError "sides") ∧
    ConfigurableAB.init (some "u") false (some "MyTest") (some [("A", "Side A")]) =
      Except.ok ⟨⟨some "u", some "MyTest", some [("A", "Side A")]⟩, none⟩ := by
  decide

/-- C9 counterexample: with a storage attached, a current side of "A" and
`record()` called with the side omitted, the core forwards `None` as the
side — not the currently selected side, as the claim states. -/
theorem c9_counterexample :
    BaseAB.record (some "u9") (some "T9") true none = some ⟨some "u9", some "T9", none⟩ ∧
    record_spec (some "u9") (some "T9") (some "A") true none = some ⟨some "u9", some "T9", some "A"⟩ ∧
    BaseAB.record (some "u9") (some "T9") true none ≠
      record_spec (some "u9") (some "T9") (some "A") true none := by
  decide

/-- C9 (amended): `record(side)` forwards a conversion event for
(identity, name, side-as-given — `None` when omitted, never substituting
the current side) to the storage collaborator when one is attached, and
with no storage attached forwards nothing: it is a no-op that never raises
and changes no state. -/
theorem c9_record_forwards (identity name side : Option String) :
    BaseAB.record identity name true side = some ⟨identity, name, side⟩ ∧
    BaseAB.record identity name false side = none :=
  ⟨rfl, rfl⟩
